import Mathlib

/-
A verification development for `lib/core/installation.py`: dependency
checking against an installed-package registry, and dependency
installation via a package-manager subprocess.

The Python module is embedded shallowly. External effects (the
requirement parser, the installed-version registry, the specifier
satisfaction test, the file read, the subprocess exit status) are
parameters of the embedded functions; the control flow, string
formatting and exception plumbing are translated from the source.
-/

namespace Installation

/-- The single-quote character, built numerically so message strings can
be assembled exactly as the source formats them. -/
def squote : String := String.singleton (Char.ofNat 39)

/-- A parsed requirement, mirroring the `name` and `specifier`
attributes of a `packaging.requirements.Requirement`: the specifier is
kept in rendered form, with the empty string standing for an empty
(falsy) `SpecifierSet`. -/
structure Requirement where
  name : String
  specifier : String
deriving DecidableEq

/-- The argument `DistributionNotFound.__init__` receives: `None`, a
string (package name or error message), or a `Requirement` object. -/
inductive ReqArg where
  | noArg
  | ofStr (s : String)
  | ofReq (r : Requirement)
deriving DecidableEq

/-- `DistributionNotFound.__str__`, case by case on how the exception
was constructed. -/
def distributionNotFoundStr : ReqArg → String
  | .ofStr s => s
  | .ofReq r => "The " ++ squote ++ r.name ++ squote ++ " distribution was not found"
  | .noArg => "Distribution not found"

/-- The `requirement` attribute stored by `DistributionNotFound.__init__`:
`None`, the `Requirement` object, or the string, depending on the
argument. -/
def distributionNotFoundRequirement : ReqArg → Option (Requirement ⊕ String)
  | .noArg => none
  | .ofStr s => some (Sum.inr s)
  | .ofReq r => some (Sum.inl r)

/-- The `dist` argument of `VersionConflict.__init__`: `None`, a plain
string, or an object carrying `project_name` and `version` attributes
(the `MockDist` built inside `check_dependencies`). -/
inductive VCDist where
  | noDist
  | ofStr (s : String)
  | mock (project_name : String) (version : String)
deriving DecidableEq

/-- The `requirement` argument of `VersionConflict.__init__`: `None` or
an object with `name` and `specifier` attributes. -/
inductive VCReq where
  | noReq
  | ofReq (r : Requirement)
deriving DecidableEq

/-- Python `str.split()` with no separator: split on whitespace runs,
dropping empty pieces. -/
def pySplitWs (s : String) : List String :=
  (s.split Char.isWhitespace).filter (fun t => !t.isEmpty)

/-- The message computed by `VersionConflict.__init__` and stored in
`args[0]` (also the value of `VersionConflict.__str__`), translated
branch by branch from the source. -/
def versionConflictMessage (dist : VCDist) (req : VCReq) : String :=
  match dist, req with
  | .ofStr s, .noReq => s
  | _, _ =>
    let pv : String × String :=
      match dist with
      | .mock n v => (n, v)
      | .ofStr s =>
        match pySplitWs s with
        | p :: v :: _ => (p, v)
        | _ => (s, "unknown")
      | .noDist => ("unknown", "unknown")
    match req with
    | .ofReq r =>
      pv.1 ++ " " ++ pv.2 ++ " is installed but " ++ r.name ++ r.specifier ++ " is required"
    | .noReq => "Version conflict: " ++ pv.1 ++ " " ++ pv.2

/-- Python `line.strip()`: drop leading and trailing whitespace. -/
def pyStrip (s : String) : String :=
  String.mk (((s.data.dropWhile Char.isWhitespace).reverse.dropWhile
    Char.isWhitespace).reverse)

/-- Python `s.startswith('#')`. -/
def startsWithHash (s : String) : Bool :=
  match s.data with
  | c :: _ => c = '#'
  | [] => false

/-- The external effects `check_dependencies` performs on one line:
`parseReq` is the `Requirement(...)` constructor (its error carries
`str(e)`, the parser's message); `installedVersion` is
`importlib.metadata.version` (`none` models `PackageNotFoundError`);
`specContains` is `requirement.specifier.contains(installed_version)`. -/
structure Env where
  parseReq : String → Except String Requirement
  installedVersion : String → Option String
  specContains : String → String → Bool

/-- An exception value raised inside `check_dependencies`. -/
inductive CheckExc where
  | distributionNotFound (arg : ReqArg)
  | versionConflict (message : String)
deriving DecidableEq

/-- What happens to one manifest line inside the loop of
`check_dependencies`: skipped (blank or comment), passed, an exception
constructed and then swallowed by the outer `except Exception` handler
(its `isinstance` filter exempts `DistributionNotFound` and
`VersionConflict` from re-wrapping and nothing re-raises them), or an
exception that propagates to the caller. -/
inductive LineOutcome where
  | skipped
  | ok
  | suppressed (e : CheckExc)
  | raised (e : CheckExc)
deriving DecidableEq

/-- The body of the `for` loop of `check_dependencies` for a single
line, translated from the source: strip, skip blanks and `#`-comments,
parse, look up the installed version, compare against the specifier.
A failed parse raises `DistributionNotFound(str(e))` from inside the
`except Exception` handler, so it propagates; `DistributionNotFound`
and `VersionConflict` raised in the `try` body are caught by that
handler and not re-raised. -/
def checkLine (env : Env) (line : String) : LineOutcome :=
  let dependency := pyStrip line
  if dependency.data.isEmpty || startsWithHash dependency then
    .skipped
  else
    match env.parseReq dependency with
    | .error msg => .raised (.distributionNotFound (.ofStr msg))
    | .ok requirement =>
      match env.installedVersion requirement.name with
      | none => .suppressed (.distributionNotFound (.ofReq requirement))
      | some installed_version =>
        if !requirement.specifier.data.isEmpty &&
            !env.specContains requirement.specifier installed_version then
          .suppressed (.versionConflict
            (versionConflictMessage (.mock requirement.name installed_version)
              (.ofReq requirement)))
        else
          .ok

/-- `check_dependencies` over the manifest lines: the loop runs until a
line raises an exception that propagates; `none` means the function
returns normally. -/
def check_dependencies (env : Env) : List String → Option CheckExc
  | [] => none
  | line :: rest =>
    match checkLine env line with
    | .raised e => some e
    | _ => check_dependencies env rest

/-- The outcome of `FileUtils.get_lines(REQUIREMENTS_FILE)`: the lines,
or `FileNotFoundError`. -/
inductive ReadResult where
  | ok (lines : List String)
  | fileNotFound

/-- What `get_dependencies` does: return the lines, or print a message
and exit the process with the given status. -/
inductive GetDepsOutcome where
  | lines (l : List String)
  | exited (printed : String) (status : Nat)
deriving DecidableEq

/-- `get_dependencies`, translated from the source: on
`FileNotFoundError` it prints and calls `exit(1)`. -/
def get_dependencies : ReadResult → GetDepsOutcome
  | .ok l => .lines l
  | .fileNotFound =>
    .exited ("Can" ++ squote ++ "t find requirements.txt") 1

/-- The argument list `install_dependencies` passes to
`subprocess.check_output`. -/
def pipInstallArgs (pythonExecutable requirementsFile : String) : List String :=
  [pythonExecutable, "-m", "pip", "install", "-r", requirementsFile]

/-- The outcome of `install_dependencies`. -/
inductive InstallOutcome where
  | ok
  | failedDependenciesInstallation
deriving DecidableEq

/-- `install_dependencies` as a function of the subprocess exit status:
`subprocess.check_output` raises `CalledProcessError` exactly when the
status is non-zero, and that is caught and re-raised as
`FailedDependenciesInstallation`. -/
def install_dependencies (exitStatus : Nat) : InstallOutcome :=
  if exitStatus = 0 then .ok else .failedDependenciesInstallation

/-- Characters allowed in a package name: alphanumerics, dash,
underscore, dot. -/
def nameChar (c : Char) : Bool := c.isAlphanum || c = '-' || c = '_' || c = '.'

/-- Comparison-operator characters opening a version specifier. -/
def opChar (c : Char) : Bool := c = '<' || c = '>' || c = '=' || c = '!' || c = '~'

/-- Characters allowed inside a rendered version specifier. -/
def specChar (c : Char) : Bool :=
  nameChar c || opChar c || c = ',' || c = '*' || c = '+'

/-- A rendered specifier is empty or begins with a comparison
operator. -/
def specHeadOk : List Char → Bool
  | [] => true
  | c :: _ => opChar c

/-- Modelled from the spec: the requirement-line parser, standing in for
the external `packaging.requirements.Requirement` constructor, which is
not part of this repository. Per the spec, a manifest line is a package
name followed by a version-range specifier such as ">=1.0,<2.0"; the
parser splits the line at the end of the name, ignores whitespace
around the specifier, and accepts the line when the name is non-empty
and the specifier is empty or starts with a comparison operator. -/
def parseChars (cs : List Char) : Option (List Char × List Char) :=
  if (cs.takeWhile nameChar).isEmpty then none
  else if ((cs.dropWhile nameChar).filter (fun c => !c.isWhitespace)).all specChar &&
      specHeadOk ((cs.dropWhile nameChar).filter (fun c => !c.isWhitespace)) then
    some (cs.takeWhile nameChar, (cs.dropWhile nameChar).filter (fun c => !c.isWhitespace))
  else none

/-- Re-rendering a parsed requirement: the name followed by the
rendered specifier. -/
def renderReq (nsp : List Char × List Char) : List Char := nsp.1 ++ nsp.2

theorem all_takeWhile_self (p : Char → Bool) (l : List Char) :
    (l.takeWhile p).all p = true := by
  induction l with
  | nil => rfl
  | cons c cs ih =>
    by_cases h : p c <;> simp [List.takeWhile_cons, h, ih]

theorem takeWhile_append_all (p : Char → Bool) (l₁ l₂ : List Char)
    (h : l₁.all p = true) :
    (l₁ ++ l₂).takeWhile p = l₁ ++ l₂.takeWhile p := by
  induction l₁ with
  | nil => simp
  | cons c cs ih =>
    simp only [List.all_cons, Bool.and_eq_true] at h
    simp [List.takeWhile_cons, h.1, ih h.2]

theorem dropWhile_append_all (p : Char → Bool) (l₁ l₂ : List Char)
    (h : l₁.all p = true) :
    (l₁ ++ l₂).dropWhile p = l₂.dropWhile p := by
  induction l₁ with
  | nil => simp
  | cons c cs ih =>
    simp only [List.all_cons, Bool.and_eq_true] at h
    simp [List.dropWhile_cons, h.1, ih h.2]

theorem opChar_not_nameChar (c : Char) (h : opChar c = true) :
    nameChar c = false := by
  simp only [opChar, Bool.or_eq_true, decide_eq_true_eq] at h
  rcases h with (((h | h) | h) | h) | h <;> subst h <;> decide

theorem specChar_not_ws (c : Char) (h : specChar c = true) :
    c.isWhitespace = false := by
  cases hw : c.isWhitespace with
  | false => rfl
  | true =>
    exfalso
    simp only [Char.isWhitespace, Bool.or_eq_true, decide_eq_true_eq] at hw
    rcases hw with ((hw | hw) | hw) | hw <;> subst hw <;>
      simp [specChar, nameChar, opChar] at h

theorem filter_ws_eq_self (l : List Char) (h : l.all specChar = true) :
    l.filter (fun c => !c.isWhitespace) = l := by
  induction l with
  | nil => rfl
  | cons c cs ih =>
    simp only [List.all_cons, Bool.and_eq_true] at h
    simp [List.filter_cons, specChar_not_ws c h.1, ih h.2]

end Installation

namespace Installation

/-- C1: on a manifest line naming a package with no installed version,
`check_dependencies` constructs `DistributionNotFound(requirement)`, but
the outer `except Exception` handler catches it, its `isinstance`
filter exempts it from re-wrapping, and nothing re-raises it: the
exception is swallowed and the function returns normally instead of
propagating the failure to the caller. -/
theorem missing_package_error_swallowed :
    checkLine ⟨fun s => Except.ok ⟨s, ""⟩, fun _ => none, fun _ _ => true⟩ "somepkg"
      = .suppressed (.distributionNotFound (.ofReq ⟨"somepkg", ""⟩)) ∧
    check_dependencies ⟨fun s => Except.ok ⟨s, ""⟩, fun _ => none, fun _ _ => true⟩
      ["somepkg"] = none := ⟨rfl, rfl⟩

/-- C2: on a manifest line whose package is installed at a version
outside the declared specifier, `check_dependencies` constructs
`VersionConflict(mock_dist, requirement)`, but the outer
`except Exception` handler swallows it exactly as in C1: the function
returns normally instead of propagating the conflict to the caller. -/
theorem version_conflict_error_swallowed :
    checkLine ⟨fun _ => Except.ok ⟨"foo", ">=2.0"⟩, fun _ => some "1.0", fun _ _ => false⟩
      "foo>=2.0"
      = .suppressed (.versionConflict "foo 1.0 is installed but foo>=2.0 is required") ∧
    check_dependencies
      ⟨fun _ => Except.ok ⟨"foo", ">=2.0"⟩, fun _ => some "1.0", fun _ _ => false⟩
      ["foo>=2.0"] = none := ⟨rfl, rfl⟩

/-- C3: a `VersionConflict` built from a distribution carrying a project
name and installed version and from a requirement carrying a name and
specifier formats its message as
"(project) (installed-version) is installed but (name)(specifier) is
required", so the message contains both the installed version and the
required specifier. -/
theorem version_conflict_message_has_both_versions (p v : String) (r : Requirement) :
    versionConflictMessage (.mock p v) (.ofReq r) =
      p ++ " " ++ v ++ " is installed but " ++ r.name ++ r.specifier ++ " is required" := rfl

/-- C4: a manifest line that is empty after stripping, or whose stripped
form starts with a hash, is skipped by `check_dependencies`: it is never
parsed or looked up, and removing it from the manifest does not change
the outcome. -/
theorem blank_and_comment_lines_skipped (env : Env) (line : String) (rest : List String)
    (h : (pyStrip line).data.isEmpty = true ∨ startsWithHash (pyStrip line) = true) :
    checkLine env line = .skipped ∧
    check_dependencies env (line :: rest) = check_dependencies env rest := by
  have h1 : checkLine env line = .skipped := by
    rcases h with h | h <;> simp [checkLine, h]
  exact ⟨h1, by simp [check_dependencies, h1]⟩

/-- C4 witness: a comment line is skipped and has no effect on the
outcome of the rest of the manifest. -/
theorem blank_and_comment_lines_skipped_witness :
    checkLine ⟨fun s => Except.ok ⟨s, ""⟩, fun _ => none, fun _ _ => true⟩
      "  # pinned below" = .skipped ∧
    check_dependencies ⟨fun s => Except.ok ⟨s, ""⟩, fun _ => none, fun _ _ => true⟩
      ["  # pinned below", "   "] =
      check_dependencies ⟨fun s => Except.ok ⟨s, ""⟩, fun _ => none, fun _ _ => true⟩
      ["   "] :=
  blank_and_comment_lines_skipped _ "  # pinned below" ["   "] (Or.inr rfl)

/-- C5: when reading the manifest raises file-not-found,
`get_dependencies` prints "Can't find requirements.txt" and exits the
process with status 1; otherwise it returns the lines to the caller. -/
theorem get_dependencies_missing_manifest :
    get_dependencies .fileNotFound =
      .exited ("Can" ++ squote ++ "t find requirements.txt") 1 ∧
    ∀ l, get_dependencies (.ok l) = .lines l := ⟨rfl, fun _ => rfl⟩

/-- C6: `install_dependencies` passes the manifest path in the
subprocess argument list, and it raises
`FailedDependenciesInstallation` exactly when the subprocess exits with
a non-zero status; on a zero exit status it returns normally. -/
theorem install_dependencies_subprocess (exe manifest : String) (exitStatus : Nat) :
    manifest ∈ pipInstallArgs exe manifest ∧
    (install_dependencies exitStatus = .failedDependenciesInstallation ↔ exitStatus ≠ 0) := by
  constructor
  · simp [pipInstallArgs]
  · unfold install_dependencies
    by_cases h : exitStatus = 0 <;> simp [h]

/-- C7: parsing a well-formed specifier line into a (name, specifier)
requirement and re-rendering that requirement parses back to the same
name and specifier. -/
theorem parse_roundtrip (cs n sp : List Char)
    (h : parseChars cs = some (n, sp)) :
    parseChars (renderReq (n, sp)) = some (n, sp) := by
  unfold parseChars at h
  split_ifs at h with h1 h2
  · rw [Option.some.injEq, Prod.mk.injEq] at h
    obtain ⟨hn, hsp0⟩ := h
    have hall : n.all nameChar = true := hn ▸ all_takeWhile_self nameChar cs
    rw [Bool.and_eq_true] at h2
    have hspall : sp.all specChar = true := hsp0 ▸ h2.1
    have hhead : specHeadOk sp = true := hsp0 ▸ h2.2
    have htW : sp.takeWhile nameChar = [] := by
      cases sp with
      | nil => rfl
      | cons c cs2 =>
        have hop : opChar c = true := hhead
        simp [List.takeWhile_cons, opChar_not_nameChar c hop]
    have hdW : sp.dropWhile nameChar = sp := by
      cases sp with
      | nil => rfl
      | cons c cs2 =>
        have hop : opChar c = true := hhead
        simp [List.dropWhile_cons, opChar_not_nameChar c hop]
    have key : (n ++ sp).takeWhile nameChar = n := by
      rw [takeWhile_append_all nameChar n sp hall, htW, List.append_nil]
    have key2 : (n ++ sp).dropWhile nameChar = sp := by
      rw [dropWhile_append_all nameChar n sp hall, hdW]
    show parseChars (n ++ sp) = some (n, sp)
    unfold parseChars
    rw [key, key2, filter_ws_eq_self sp hspall,
      if_neg (hn ▸ h1), if_pos (by rw [hspall, hhead]; rfl)]

/-- C7 witness: the line "foo >= 1.0, <2.0" parses to name "foo" and
specifier ">=1.0,<2.0", and re-rendering parses back to the same
pair. -/
theorem parse_roundtrip_witness :
    parseChars (renderReq ("foo".data, ">=1.0,<2.0".data)) =
      some ("foo".data, ">=1.0,<2.0".data) :=
  parse_roundtrip "foo >= 1.0, <2.0".data _ _ (by decide)

/-- C8: when a manifest line parses to a requirement with an empty
specifier and the package is installed, `check_dependencies` accepts
any installed version: the specifier test short-circuits (here the
satisfaction oracle answers false and is never consulted) and the line
passes with no `VersionConflict`. -/
theorem empty_specifier_accepts_any_version (env : Env) (line : String)
    (r : Requirement) (v : String)
    (hblank : (pyStrip line).data.isEmpty = false)
    (hhash : startsWithHash (pyStrip line) = false)
    (hparse : env.parseReq (pyStrip line) = Except.ok r)
    (hspec : r.specifier = "")
    (hver : env.installedVersion r.name = some v) :
    checkLine env line = .ok := by
  simp [checkLine, hblank, hhash, hparse, hver, hspec]

/-- C8 witness: a bare package name with an installed version passes
even though the satisfaction oracle would reject every version. -/
theorem empty_specifier_accepts_any_version_witness :
    checkLine ⟨fun s => Except.ok ⟨s, ""⟩, fun _ => some "9.9", fun _ _ => false⟩
      "anyversionpkg" = .ok :=
  empty_specifier_accepts_any_version _ "anyversionpkg" ⟨"anyversionpkg", ""⟩ "9.9"
    rfl rfl rfl rfl rfl

/-- C9: a non-blank, non-comment line that fails to parse makes
`check_dependencies` raise, to its caller, a `DistributionNotFound`
built from the parser's error message string: its `requirement`
attribute is that string and its string representation is that string
itself. -/
theorem parse_error_raises_distribution_not_found (env : Env) (line : String)
    (rest : List String) (m : String)
    (hblank : (pyStrip line).data.isEmpty = false)
    (hhash : startsWithHash (pyStrip line) = false)
    (hparse : env.parseReq (pyStrip line) = Except.error m) :
    checkLine env line = .raised (.distributionNotFound (.ofStr m)) ∧
    check_dependencies env (line :: rest) = some (.distributionNotFound (.ofStr m)) ∧
    distributionNotFoundStr (.ofStr m) = m ∧
    distributionNotFoundRequirement (.ofStr m) = some (Sum.inr m) := by
  have h1 : checkLine env line = .raised (.distributionNotFound (.ofStr m)) := by
    simp [checkLine, hblank, hhash, hparse]
  exact ⟨h1, by simp [check_dependencies, h1], rfl, rfl⟩

/-- C9 witness: an unparsable line propagates a `DistributionNotFound`
carrying the parser's message. -/
theorem parse_error_raises_distribution_not_found_witness :
    checkLine
      ⟨fun s => Except.error ("Invalid requirement: " ++ s), fun _ => none, fun _ _ => true⟩
      "???" = .raised (.distributionNotFound (.ofStr "Invalid requirement: ???")) ∧
    check_dependencies
      ⟨fun s => Except.error ("Invalid requirement: " ++ s), fun _ => none, fun _ _ => true⟩
      ["???"] = some (.distributionNotFound (.ofStr "Invalid requirement: ???")) ∧
    distributionNotFoundStr (.ofStr "Invalid requirement: ???") = "Invalid requirement: ???" ∧
    distributionNotFoundRequirement (.ofStr "Invalid requirement: ???") =
      some (Sum.inr "Invalid requirement: ???") :=
  parse_error_raises_distribution_not_found _ "???" [] "Invalid requirement: ???"
    rfl rfl rfl

/-- C10: the string representation of a `DistributionNotFound` follows
its construction: from a requirement object it is
"The '(name)' distribution was not found", from a string it is the
string itself, and with no argument it is "Distribution not found". -/
theorem distribution_not_found_str_cases (r : Requirement) (s : String) :
    distributionNotFoundStr (.ofReq r) =
      "The " ++ squote ++ r.name ++ squote ++ " distribution was not found" ∧
    distributionNotFoundStr (.ofStr s) = s ∧
    distributionNotFoundStr .noArg = "Distribution not found" := ⟨rfl, rfl, rfl⟩

end Installation
